import Mathlib

/-!
Verification of the single-active-session enforcement mechanism of the
Masil user web application.

The embedding follows the two source files:

* `LoginForm.handleLogin` (login flow): credential check via the auth
  collaborator, mint of a fresh session id posted to the
  `update-session` endpoint, caching in local storage, then a role
  lookup that decides the navigation target.  The `fetch` call only
  throws on a network error; a non-success HTTP response resolves
  normally and is not inspected by the code.
* `ProtectedRoute` / `validateSession` (validation flow): reads the
  user record (role and latest session id) from the system of record,
  compares the stored latest session id with the one in local storage,
  optionally checks the administrator role, and on an invalid session
  signs out and redirects to the login page.
* `AppContent.handleLogout`: signs out, removes the cached session id
  and navigates to the login page.

The FastAPI endpoint behind `POST /api/users/update-session` is not in
the repository snapshot; it is modelled from the spec (see
`mintPersist`).
-/

/-- A user record in the system of record: role and the latest minted
session identifier (nullable). -/
structure UserRecord where
  role : String
  latest_session_id : Option String
deriving DecidableEq, Repr

/-- The backend system of record: user records keyed by user id. -/
structure ServerState where
  users : String → Option UserRecord

/-- Client-side state: the `session_id` slot of local storage and the
auth collaborator session (the authenticated user id when present). -/
structure ClientState where
  localSessionId : Option String
  authSession : Option String

/-- The whole world the mechanism touches. -/
structure WorldState where
  server : ServerState
  client : ClientState

/-- Result of `supabase.auth.signInWithPassword`: an error or an
authenticated user id. -/
inductive AuthResult where
  | err (msg : String)
  | ok (userId : String)

/-- Outcome of the `fetch` to the session-mint endpoint.  `ok` is a
success response, `httpError` a non-success HTTP response (the promise
still resolves), `networkError` a rejected promise (the only case the
`try/catch` in the source intercepts). -/
inductive MintOutcome where
  | ok
  | httpError
  | networkError
deriving DecidableEq, Repr

/-- Navigation targets of the app. -/
inductive Route where
  | login
  | home
  | admin
deriving DecidableEq, Repr

/-- What `ProtectedRoute` renders. -/
inductive RouteRender where
  | children
  | redirectLogin
deriving DecidableEq, Repr

/-- Result of the login flow: the world afterwards, the alerts shown,
and the navigation performed (if any). -/
structure LoginResult where
  world : WorldState
  alerts : List String
  nav : Option Route

/-- Result of rendering `ProtectedRoute` once its effect has settled. -/
structure RouteResult where
  world : WorldState
  isValidSession : Bool
  render : RouteRender
  backendCalled : Bool
  signOutCalled : Bool

/-- `supabase.auth.signOut()`: clears the auth session only. -/
def authSignOut (c : ClientState) : ClientState :=
  { c with authSession := none }

/-- Modelled from the spec: the session-mint endpoint
(`POST /api/users/update-session`, a FastAPI handler absent from the
snapshot) persists `session_id` as the latest session identifier of the
record keyed by `user_id`. -/
def mintPersist (s : ServerState) (uid sid : String) : ServerState :=
  { users := fun u =>
      if u = uid then
        (s.users u).map (fun ur => { ur with latest_session_id := some sid })
      else
        s.users u }

/-- The tail of `handleLogin` after the mint block: the role lookup
(`select role ... single()`) and the navigation decision.  A lookup
failure alerts and navigates to the default landing; otherwise the role
decides between the admin landing and the default landing. -/
def loginAfterMint (w : WorldState) (uid : String) : LoginResult :=
  match (w.server.users uid).map UserRecord.role with
  | none =>
      { world := w, alerts := ["역할 정보 조회 실패"], nav := some Route.home }
  | some role =>
      if role = "ADMIN" then
        { world := w, alerts := [], nav := some Route.admin }
      else
        { world := w, alerts := [], nav := some Route.home }

/-- `handleLogin` from the login form.  On credential rejection the
error is alerted and nothing else happens.  On success the auth session
is established, a fresh session id `newSessionId` is minted: a network
error during the fetch is caught, alerted and answered with a sign-out;
otherwise (success or non-success response alike, the response status is
never inspected) the id is cached in local storage and the role lookup
decides navigation. -/
def handleLogin (w : WorldState) (auth : AuthResult) (mint : MintOutcome)
    (newSessionId : String) : LoginResult :=
  match auth with
  | AuthResult.err msg => { world := w, alerts := [msg], nav := none }
  | AuthResult.ok uid =>
    let w1 : WorldState :=
      { w with client := { w.client with authSession := some uid } }
    match mint with
    | MintOutcome.networkError =>
        { world := { w1 with client := authSignOut w1.client },
          alerts := ["세션 처리 중 오류가 발생했습니다. 다시 로그인해주세요."],
          nav := none }
    | MintOutcome.ok =>
        loginAfterMint
          { server := mintPersist w1.server uid newSessionId,
            client := { w1.client with localSessionId := some newSessionId } }
          uid
    | MintOutcome.httpError =>
        loginAfterMint
          { w1 with client := { w1.client with localSessionId := some newSessionId } }
          uid

/-- The read of the user record performed by `validateSession`
(`select role, latest_session_id ... single()`): a pure read of the
system of record. -/
def dbSelectUser (s : ServerState) (uid : String) : ServerState × Option UserRecord :=
  (s, s.users uid)

/-- `validateSession` with explicit state passing: reads the user
record, compares the stored latest session id with the local-storage
one, and checks the role when `adminOnly`.  Returns the world after the
call together with the `isValidSession` decision. -/
def validateSessionRun (w : WorldState) (uid : String) (adminOnly : Bool) :
    WorldState × Bool :=
  let step := dbSelectUser w.server uid
  let localSessionId := w.client.localSessionId
  let isValid : Bool :=
    match step.2 with
    | some profile =>
        if profile.latest_session_id = localSessionId then
          if adminOnly && profile.role != "ADMIN" then false else true
        else false
    | none => false
  ({ w with server := step.1 }, isValid)

/-- The authorization decision of `validateSession`. -/
def validateSession (w : WorldState) (uid : String) (adminOnly : Bool) : Bool :=
  (validateSessionRun w uid adminOnly).2

/-- One settled rendering of `ProtectedRoute`.  With no session the
effect returns early (no backend call, `isValidSession` stays false);
otherwise `validateSession` runs.  An invalid session is rendered as a
sign-out plus a redirect to `/login`; a valid one renders the children. -/
def protectedRoute (w : WorldState) (adminOnly : Bool) : RouteResult :=
  match w.client.authSession with
  | none =>
      { world := { w with client := authSignOut w.client },
        isValidSession := false,
        render := RouteRender.redirectLogin,
        backendCalled := false,
        signOutCalled := true }
  | some uid =>
      let stepped := validateSessionRun w uid adminOnly
      if stepped.2 then
        { world := stepped.1,
          isValidSession := true,
          render := RouteRender.children,
          backendCalled := true,
          signOutCalled := false }
      else
        { world := { stepped.1 with client := authSignOut stepped.1.client },
          isValidSession := false,
          render := RouteRender.redirectLogin,
          backendCalled := true,
          signOutCalled := true }

/-- `handleLogout` from `AppContent`: sign out, remove the cached
session id, navigate to the login page. -/
def handleLogout (w : WorldState) : WorldState × Route :=
  ({ w with client := { authSignOut w.client with localSessionId := none } },
   Route.login)

/-- A regular user record holding token T2. -/
def urUser : UserRecord := { role := "USER", latest_session_id := some "T2" }

/-- A store with the single user `u1` mapped to `urUser`. -/
def storeOne : ServerState :=
  { users := fun u => if u = "u1" then some urUser else none }

/-- An authenticated client holding a stale token T1 against `storeOne`. -/
def wMismatch : WorldState :=
  { server := storeOne,
    client := { localSessionId := some "T1", authSession := some "u1" } }

/-- An unauthenticated client with an empty local storage. -/
def wAnon : WorldState :=
  { server := storeOne,
    client := { localSessionId := none, authSession := none } }

/-- An authenticated client whose user has no profile row. -/
def wNoProfile : WorldState :=
  { server := { users := fun _ => none },
    client := { localSessionId := none, authSession := some "u1" } }

/-- A user record that was never minted (null latest session id). -/
def wNullBoth : WorldState :=
  { server := { users := fun u =>
      if u = "u1" then some { role := "USER", latest_session_id := none } else none },
    client := { localSessionId := none, authSession := some "u1" } }

/-- An unauthenticated client over an empty store. -/
def wEmpty : WorldState :=
  { server := { users := fun _ => none },
    client := { localSessionId := none, authSession := none } }

/-- An authenticated client whose cached token matches the record. -/
def wMatched : WorldState :=
  { server := storeOne,
    client := { localSessionId := some "T2", authSession := some "u1" } }

/-- The validator run leaves the world exactly as it was: the read is
the only interaction with the system of record. -/
theorem validateSessionRun_eq (w : WorldState) (uid : String) (b : Bool) :
    validateSessionRun w uid b = (w, validateSession w uid b) := rfl

/-- The tail of the login flow never modifies the world. -/
theorem loginAfterMint_world (w : WorldState) (uid : String) :
    (loginAfterMint w uid).world = w := by
  unfold loginAfterMint
  split
  · rfl
  · split <;> rfl

/-- C2: whenever the cached token differs from the user record's
current token, the validator returns unauthorized, the render signs the
auth session out, and the client is redirected to the login entry
point. -/
theorem validate_mismatch_unauthorized_signout (w : WorldState) (uid : String)
    (b : Bool) (ur : UserRecord)
    (hauth : w.client.authSession = some uid)
    (hrec : w.server.users uid = some ur)
    (hne : ur.latest_session_id ≠ w.client.localSessionId) :
    validateSession w uid b = false ∧
    (protectedRoute w b).signOutCalled = true ∧
    (protectedRoute w b).render = RouteRender.redirectLogin ∧
    (protectedRoute w b).world.client.authSession = none := by
  have hval : validateSession w uid b = false := by
    simp only [validateSession, validateSessionRun, dbSelectUser]
    rw [hrec]
    simp [hne]
  have hrun : validateSessionRun w uid b = (w, false) := by
    rw [validateSessionRun_eq, hval]
  refine ⟨hval, ?_, ?_, ?_⟩ <;> simp [protectedRoute, hauth, hrun, authSignOut]

theorem validate_mismatch_unauthorized_signout_witness :
    validateSession wMismatch "u1" false = false ∧
    (protectedRoute wMismatch false).signOutCalled = true ∧
    (protectedRoute wMismatch false).render = RouteRender.redirectLogin ∧
    (protectedRoute wMismatch false).world.client.authSession = none :=
  validate_mismatch_unauthorized_signout wMismatch "u1" false urUser
    (by decide) (by decide) (by decide)

/-- C6: with the administrator requirement set, a fetched role other
than `ADMIN` yields unauthorized whatever the token comparison says. -/
theorem admin_gate_nonadmin (w : WorldState) (uid : String) (ur : UserRecord)
    (hrec : w.server.users uid = some ur)
    (hrole : ur.role ≠ "ADMIN") :
    validateSession w uid true = false := by
  simp only [validateSession, validateSessionRun, dbSelectUser]
  rw [hrec]
  simp [hrole]

theorem admin_gate_nonadmin_witness :
    validateSession wMatched "u1" true = false :=
  admin_gate_nonadmin wMatched "u1" urUser (by decide) (by decide)

/-- C7: with no auth session and no cached token the route is
immediately unauthorized and no backend read happens. -/
theorem no_session_fail_fast (w : WorldState) (b : Bool)
    (hauth : w.client.authSession = none)
    (_hlocal : w.client.localSessionId = none) :
    (protectedRoute w b).isValidSession = false ∧
    (protectedRoute w b).backendCalled = false ∧
    (protectedRoute w b).render = RouteRender.redirectLogin := by
  refine ⟨?_, ?_, ?_⟩ <;> simp [protectedRoute, hauth]

theorem no_session_fail_fast_witness :
    (protectedRoute wAnon false).isValidSession = false ∧
    (protectedRoute wAnon false).backendCalled = false ∧
    (protectedRoute wAnon false).render = RouteRender.redirectLogin :=
  no_session_fail_fast wAnon false (by decide) (by decide)

/-- C8: running the validator twice in a row from the same system of
record and cached token, threading the world through, yields the same
authorization decision both times. -/
theorem validate_idempotent (w : WorldState) (uid : String) (b : Bool) :
    (validateSessionRun (validateSessionRun w uid b).1 uid b).2 =
    (validateSessionRun w uid b).2 := rfl

/-- C9: the validator never mutates the system of record (neither does
the logout flow), and the login flow leaves it unchanged unless the
mint succeeds — the minter is the only writer. -/
theorem validator_readonly (w : WorldState) (uid : String) (b : Bool) :
    (validateSessionRun w uid b).1.server = w.server ∧
    (protectedRoute w b).world.server = w.server ∧
    (handleLogout w).1.server = w.server ∧
    (∀ a sid, (handleLogin w a MintOutcome.httpError sid).world.server = w.server) ∧
    (∀ a sid, (handleLogin w a MintOutcome.networkError sid).world.server = w.server) := by
  refine ⟨rfl, ?_, rfl, ?_, ?_⟩
  · cases hauth : w.client.authSession with
    | none => simp [protectedRoute, hauth, authSignOut]
    | some uid2 =>
        simp only [protectedRoute, hauth, validateSessionRun_eq]
        split <;> rfl
  · intro a sid
    cases a with
    | err m => rfl
    | ok uid2 => simp [handleLogin, loginAfterMint_world]
  · intro a sid
    cases a with
    | err m => rfl
    | ok uid2 => rfl

/-- C10: a record whose latest session id was never set compares equal
to an absent cached token, so an authenticated session is judged valid
even though no mint ever happened. -/
theorem null_mint_validates (w : WorldState) (uid : String) (ur : UserRecord)
    (hauth : w.client.authSession = some uid)
    (hrec : w.server.users uid = some ur)
    (hnull : ur.latest_session_id = none)
    (hlocal : w.client.localSessionId = none) :
    validateSession w uid false = true ∧
    (protectedRoute w false).render = RouteRender.children := by
  have hval : validateSession w uid false = true := by
    simp only [validateSession, validateSessionRun, dbSelectUser]
    rw [hrec]
    simp [hnull, hlocal]
  have hrun : validateSessionRun w uid false = (w, true) := by
    rw [validateSessionRun_eq, hval]
  exact ⟨hval, by simp [protectedRoute, hauth, hrun]⟩

theorem null_mint_validates_witness :
    validateSession wNullBoth "u1" false = true ∧
    (protectedRoute wNullBoth false).render = RouteRender.children :=
  null_mint_validates wNullBoth "u1" { role := "USER", latest_session_id := none }
    (by decide) (by decide) (by decide) (by decide)

/-- C1: evaluation at the failing input.  When the mint endpoint
answers with a non-success HTTP response (`fetch` resolves, the code
never inspects the status), the login is NOT treated as failed: the
auth session is kept, the fresh id is cached although the system of
record still holds the old token, and navigation proceeds to the
landing page. -/
theorem mint_http_error_keeps_session :
    (handleLogin wAnon (AuthResult.ok "u1") MintOutcome.httpError "TNEW").world.client.authSession
      = some "u1" ∧
    (handleLogin wAnon (AuthResult.ok "u1") MintOutcome.httpError "TNEW").world.client.localSessionId
      = some "TNEW" ∧
    (handleLogin wAnon (AuthResult.ok "u1") MintOutcome.httpError "TNEW").world.server.users "u1"
      = some urUser ∧
    (handleLogin wAnon (AuthResult.ok "u1") MintOutcome.httpError "TNEW").nav
      = some Route.home := by
  decide

/-- C3: after a successful login (credential check and mint both
succeed) for a user whose record exists, the system of record holds the
freshly minted id and local storage caches the very same id. -/
theorem login_success_token_match (w : WorldState) (uid sid : String)
    (ur : UserRecord) (hrec : w.server.users uid = some ur) :
    (handleLogin w (AuthResult.ok uid) MintOutcome.ok sid).world.server.users uid
      = some { ur with latest_session_id := some sid } ∧
    (handleLogin w (AuthResult.ok uid) MintOutcome.ok sid).world.client.localSessionId
      = some sid ∧
    ((handleLogin w (AuthResult.ok uid) MintOutcome.ok sid).world.server.users uid).bind
        UserRecord.latest_session_id
      = (handleLogin w (AuthResult.ok uid) MintOutcome.ok sid).world.client.localSessionId := by
  refine ⟨?_, ?_, ?_⟩ <;>
    simp [handleLogin, loginAfterMint_world, mintPersist, hrec]

theorem login_success_token_match_witness :
    (handleLogin wAnon (AuthResult.ok "u1") MintOutcome.ok "T9").world.server.users "u1"
      = some { urUser with latest_session_id := some "T9" } ∧
    (handleLogin wAnon (AuthResult.ok "u1") MintOutcome.ok "T9").world.client.localSessionId
      = some "T9" ∧
    ((handleLogin wAnon (AuthResult.ok "u1") MintOutcome.ok "T9").world.server.users "u1").bind
        UserRecord.latest_session_id
      = (handleLogin wAnon (AuthResult.ok "u1") MintOutcome.ok "T9").world.client.localSessionId :=
  login_success_token_match wAnon "u1" "T9" urUser (by decide)

/-- C4, counterexample: a validation failure (stale cached token T1
against recorded token T2) signs the auth session out but leaves the
cached token in the local-storage slot — it is not discarded. -/
theorem validation_failure_keeps_cached_token :
    (protectedRoute wMismatch false).isValidSession = false ∧
    (protectedRoute wMismatch false).signOutCalled = true ∧
    (protectedRoute wMismatch false).world.client.localSessionId = some "T1" := by
  decide

/-- C4, amended: the logout flow clears the cached token slot and
navigates to the login page, while the protected-route render never
touches the slot — on validation failure only the auth session is
terminated, the cached token stays until overwritten by a later
login. -/
theorem logout_clears_token_validator_does_not :
    (∀ w, (handleLogout w).1.client.localSessionId = none ∧
          (handleLogout w).2 = Route.login) ∧
    (∀ w b, (protectedRoute w b).world.client.localSessionId
            = w.client.localSessionId) := by
  constructor
  · intro w
    exact ⟨rfl, rfl⟩
  · intro w b
    cases hauth : w.client.authSession with
    | none => simp [protectedRoute, hauth, authSignOut]
    | some uid =>
        simp only [protectedRoute, hauth, validateSessionRun_eq]
        split <;> rfl

/-- C5, counterexample: an authenticated session whose profile lookup
fails (the record store answers nothing for the user) is NOT kept
valid: the route signs the session out and redirects to the login
page. -/
theorem profile_fetch_failure_signs_out :
    wNoProfile.client.authSession = some "u1" ∧
    (protectedRoute wNoProfile false).signOutCalled = true ∧
    (protectedRoute wNoProfile false).render = RouteRender.redirectLogin ∧
    (protectedRoute wNoProfile false).world.client.authSession = none := by
  decide

/-- C5, amended: in the login flow a role lookup failure after a
successful credential check and mint keeps the auth session and routes
to the default landing; in the route validator, however, a profile
lookup failure yields unauthorized and a sign-out. -/
theorem role_lookup_failure_login_vs_validator :
    (∀ w uid sid, w.server.users uid = none →
      (handleLogin w (AuthResult.ok uid) MintOutcome.ok sid).nav = some Route.home ∧
      (handleLogin w (AuthResult.ok uid) MintOutcome.ok sid).world.client.authSession
        = some uid) ∧
    (∀ w uid b, w.client.authSession = some uid → w.server.users uid = none →
      (protectedRoute w b).signOutCalled = true ∧
      (protectedRoute w b).render = RouteRender.redirectLogin) := by
  constructor
  · intro w uid sid h
    constructor <;>
      simp [handleLogin, loginAfterMint, loginAfterMint_world, mintPersist, h]
  · intro w uid b hauth h
    have hval : validateSession w uid b = false := by
      simp only [validateSession, validateSessionRun, dbSelectUser]
      rw [h]
    have hrun : validateSessionRun w uid b = (w, false) := by
      rw [validateSessionRun_eq, hval]
    constructor <;> simp [protectedRoute, hauth, hrun]

theorem role_lookup_failure_login_vs_validator_witness :
    (handleLogin wEmpty (AuthResult.ok "u1") MintOutcome.ok "T1").nav = some Route.home ∧
    (protectedRoute wNoProfile false).render = RouteRender.redirectLogin :=
  ⟨(role_lookup_failure_login_vs_validator.1 wEmpty "u1" "T1" (by decide)).1,
   (role_lookup_failure_login_vs_validator.2 wNoProfile "u1" false (by decide) (by decide)).2⟩
